import Mathlib

/-!
Shallow embedding of the asteroid-impact backend (Flask service).

The numeric pipeline of `app/utils/physics.py` (class `ImpactPhysics`),
the orchestrator `app/services/impact_service.py` (class `ImpactService`),
and the tsunami / seismic sub-calculators of
`app/services/environmental_service.py` (class `EnvironmentalService`)
are modelled over the reals.  Python `round(x, n)` is modelled round-half-up
to `n` decimals, `int(x)` as truncation toward zero, and `math.log10` as a
partial function (`none` stands for the `ValueError` Python raises on a
non-positive argument).  Dictionary `.get(key, default)` on catalog records
is modelled with `Option` fields and `Option.getD`; Python list indexing
`xs[0]`, which raises `IndexError` on an empty list, is modelled by matching
on the list and returning `none` for the error case.
-/

open Real

/-- Python `round(x)` to an integer, as a real (round-half-up model). -/
noncomputable def round0 (x : ℝ) : ℝ := ((round x : ℤ) : ℝ)

/-- Python `round(x, 1)` (round-half-up model). -/
noncomputable def round1 (x : ℝ) : ℝ := ((round (x * 10) : ℤ) : ℝ) / 10

/-- Python `round(x, 2)` (round-half-up model). -/
noncomputable def round2 (x : ℝ) : ℝ := ((round (x * 100) : ℤ) : ℝ) / 100

/-- Python `int(x)`: truncation toward zero. -/
noncomputable def pyTrunc (x : ℝ) : ℤ := if 0 ≤ x then ⌊x⌋ else ⌈x⌉

/-- Python `math.log10 x`; `none` models the `ValueError` raised for `x ≤ 0`. -/
noncomputable def pyLog10 (x : ℝ) : Option ℝ :=
  if 0 < x then some (Real.logb 10 x) else none

/-! ## `app/utils/physics.py`, class `ImpactPhysics` -/

/-- `ImpactPhysics.ASTEROID_DENSITY` (kg/m³). -/
def ASTEROID_DENSITY : ℝ := 3000

/-- `ImpactPhysics.TNT_JOULES` (joules per ton of TNT). -/
def TNT_JOULES : ℝ := 4.184e9

/-- `ImpactPhysics.calculate_mass`: spherical asteroid of density 3000 kg/m³. -/
noncomputable def calculate_mass (diameter_m : ℝ) : ℝ :=
  let radius_m := diameter_m / 2
  let volume_m3 := (4 / 3) * Real.pi * radius_m ^ (3 : ℕ)
  volume_m3 * ASTEROID_DENSITY

/-- `ImpactPhysics.calculate_kinetic_energy`: E = ½ m v², velocity in km/s. -/
noncomputable def calculate_kinetic_energy (mass_kg velocity_km_s : ℝ) : ℝ :=
  let velocity_m_s := velocity_km_s * 1000
  0.5 * mass_kg * velocity_m_s ^ (2 : ℕ)

/-- `ImpactPhysics.energy_to_tnt_megatons`. -/
noncomputable def energy_to_tnt_megatons (energy_joules : ℝ) : ℝ :=
  (energy_joules / TNT_JOULES) / 1e6

/-- `ImpactPhysics.calculate_crater_diameter`: density 2500 for the string
`"land"`, 1000 for every other target string. -/
noncomputable def calculate_crater_diameter (energy_megatons : ℝ)
    (target_type : String) : ℝ :=
  let target_density : ℝ := if target_type = "land" then 2500 else 1000
  (1.8 * energy_megatons ^ (0.28 : ℝ) * target_density ^ (-0.33 : ℝ)) * 1000

/-- `ImpactPhysics.calculate_seismic_magnitude`: returns 0 for energy ≤ 0,
otherwise `max 0 (0.67·log10 E − 5.87)`. -/
noncomputable def calculate_seismic_magnitude (energy_joules : ℝ) : ℝ :=
  if energy_joules ≤ 0 then 0
  else max 0 (0.67 * Real.logb 10 energy_joules - 5.87)

/-- Result record of `ImpactPhysics.calculate_damage_radii`. -/
structure DamageRadii where
  crater_radius_km : ℝ
  fireball_radius_km : ℝ
  shockwave_radius_km : ℝ
  thermal_radiation_km : ℝ
  seismic_effect_km : ℝ

/-- `ImpactPhysics.calculate_damage_radii`: the crater entry calls
`calculate_crater_diameter` with its default target `'land'`. -/
noncomputable def calculate_damage_radii (energy_megatons : ℝ) : DamageRadii :=
  let crater_diameter := calculate_crater_diameter energy_megatons "land"
  ⟨crater_diameter / 2000,
   0.5 * energy_megatons ^ (0.4 : ℝ),
   2.0 * energy_megatons ^ (0.33 : ℝ),
   5.0 * energy_megatons ^ (0.4 : ℝ),
   50.0 * energy_megatons ^ (0.25 : ℝ)⟩

/-! ## `app/services/impact_service.py`, class `ImpactService`

The qualitative comparison helpers `_get_energy_comparison`,
`_get_crater_comparison` and `_get_seismic_comparison` return Python
f-strings; they are embedded as inductives carrying the branch taken and the
numeric datum interpolated into the text, which is all their logic. -/

/-- Branches of `ImpactService._get_energy_comparison`. -/
inductive EnergyComparison where
  | lessThanSmallBomb : EnergyComparison
  | conventionalBombs : EnergyComparison
  | hiroshimaBombs (n : ℝ) : EnergyComparison
  | largerThanTsarBomba : EnergyComparison
  | extinctionEvent (megatons : ℝ) : EnergyComparison

/-- Branches of `ImpactService._get_crater_comparison`. -/
inductive CraterComparison where
  | smallHouse : CraterComparison
  | footballField : CraterComparison
  | severalFootballFields : CraterComparison
  | tenCityBlocks : CraterComparison
  | biggerThanCentralPark : CraterComparison
  | visibleFromSpace (km : ℝ) : CraterComparison

/-- Branches of `ImpactService._get_seismic_comparison`. -/
inductive SeismicComparison where
  | instrumentsOnly : SeismicComparison
  | nearEpicenter : SeismicComparison
  | weakBuildings : SeismicComparison
  | moderateStructures : SeismicComparison
  | severeWideArea : SeismicComparison
  | majorDevastation : SeismicComparison
  | catastrophic : SeismicComparison

/-- `ImpactService._get_energy_comparison`. -/
noncomputable def get_energy_comparison (megatons : ℝ) : EnergyComparison :=
  if megatons < 0.001 then .lessThanSmallBomb
  else if megatons < 0.015 then .conventionalBombs
  else if megatons < 1 then .hiroshimaBombs (megatons / 0.015)
  else if megatons < 50 then .largerThanTsarBomba
  else .extinctionEvent megatons

/-- `ImpactService._get_crater_comparison`. -/
noncomputable def get_crater_comparison (diameter_m : ℝ) : CraterComparison :=
  if diameter_m < 50 then .smallHouse
  else if diameter_m < 100 then .footballField
  else if diameter_m < 500 then .severalFootballFields
  else if diameter_m < 1000 then .tenCityBlocks
  else if diameter_m < 5000 then .biggerThanCentralPark
  else .visibleFromSpace (diameter_m / 1000)

/-- `ImpactService._get_seismic_comparison`. -/
noncomputable def get_seismic_comparison (magnitude : ℝ) : SeismicComparison :=
  if magnitude < 3 then .instrumentsOnly
  else if magnitude < 4 then .nearEpicenter
  else if magnitude < 5 then .weakBuildings
  else if magnitude < 6 then .moderateStructures
  else if magnitude < 7 then .severeWideArea
  else if magnitude < 8 then .majorDevastation
  else .catastrophic

/-- `results['asteroid']` block. -/
structure AsteroidBlock where
  diameter_m : ℝ
  mass_kg : ℝ
  velocity_km_s : ℝ

/-- `results['impact']['location']` block. -/
structure LocationBlock where
  lat : ℝ
  lon : ℝ

/-- `results['impact']` block. -/
structure ImpactBlock where
  location : LocationBlock
  angle_degrees : ℝ
  target_type : String

/-- `results['energy']` block. -/
structure EnergyBlock where
  joules : ℝ
  megatons_tnt : ℝ
  hiroshima_bombs : ℝ
  comparison : EnergyComparison

/-- `results['crater']` block. -/
structure CraterBlock where
  diameter_m : ℝ
  radius_m : ℝ
  comparison : CraterComparison

/-- `results['seismic']` block. -/
structure SeismicBlock where
  magnitude_richter : ℝ
  comparison : SeismicComparison

/-- Return value of `ImpactService._estimate_population_impact`; the
`method` and `note` strings of the Python dict are fixed literals and are
omitted. -/
structure PopulationImpact where
  estimated_people_affected : ℤ
  affected_area_km2 : ℝ

/-- `ImpactService._estimate_population_impact`: the area uses the literal
constant 3.14159 from the source, not π. -/
noncomputable def estimate_population_impact (damage_radii : DamageRadii) :
    PopulationImpact :=
  let shockwave_area := 3.14159 * damage_radii.shockwave_radius_km ^ (2 : ℕ)
  ⟨pyTrunc (shockwave_area * 60), round2 shockwave_area⟩

/-- `results` dict returned by `ImpactService.simulate_impact`. -/
structure SimulationResult where
  asteroid : AsteroidBlock
  impact : ImpactBlock
  energy : EnergyBlock
  crater : CraterBlock
  seismic : SeismicBlock
  damage_zones : DamageRadii
  population_impact : PopulationImpact

/-- `ImpactService.simulate_impact`.  The source performs no validation of
any argument: it runs the physics chain on whatever it is given.  The
`damage_zones` block holds the radii rounded to 2 decimals, while the
population estimate is computed from the unrounded radii, as in the source. -/
noncomputable def simulate_impact (diameter_m velocity_km_s impact_lat
    impact_lon impact_angle : ℝ) (target_type : String) : SimulationResult :=
  let mass_kg := calculate_mass diameter_m
  let energy_joules := calculate_kinetic_energy mass_kg velocity_km_s
  let energy_megatons := energy_to_tnt_megatons energy_joules
  let crater_diameter_m := calculate_crater_diameter energy_megatons target_type
  let seismic_magnitude := calculate_seismic_magnitude energy_joules
  let damage_radii := calculate_damage_radii energy_megatons
  ⟨⟨diameter_m, mass_kg, velocity_km_s⟩,
   ⟨⟨impact_lat, impact_lon⟩, impact_angle, target_type⟩,
   ⟨energy_joules, round2 energy_megatons, round0 (energy_megatons / 0.015),
    get_energy_comparison energy_megatons⟩,
   ⟨round2 crater_diameter_m, round2 (crater_diameter_m / 2),
    get_crater_comparison crater_diameter_m⟩,
   ⟨round2 seismic_magnitude, get_seismic_comparison seismic_magnitude⟩,
   ⟨round2 damage_radii.crater_radius_km,
    round2 damage_radii.fireball_radius_km,
    round2 damage_radii.shockwave_radius_km,
    round2 damage_radii.thermal_radiation_km,
    round2 damage_radii.seismic_effect_km⟩,
   estimate_population_impact damage_radii⟩

/-- One entry of a catalog record's `close_approach_data` list; the
`velocity_km_s` key may be absent (`asteroid_data.get`). -/
structure CloseApproach where
  velocity_km_s : Option ℝ

/-- Catalog-style asteroid record as consumed by `simulate_from_nasa_data`;
each field models a dict key that may be absent. -/
structure NasaRecord where
  diameter_max_m : Option ℝ
  diameter_min_m : Option ℝ
  close_approach_data : Option (List CloseApproach)

/-- `ImpactService.simulate_from_nasa_data`.  The source does
`asteroid_data.get('close_approach_data', [{}])[0]`: the default `[{}]`
applies only when the key is absent; when the key is present with an empty
list the indexing `[0]` raises `IndexError`, modelled as `none`. -/
noncomputable def simulate_from_nasa_data (asteroid_data : NasaRecord)
    (impact_lat impact_lon : ℝ) (target_type : String) :
    Option SimulationResult :=
  let diameter_max := asteroid_data.diameter_max_m.getD 0
  let diameter_min := asteroid_data.diameter_min_m.getD 0
  let diameter_avg := (diameter_max + diameter_min) / 2
  match asteroid_data.close_approach_data.getD [⟨none⟩] with
  | [] => none
  | close_approach :: _ =>
      let velocity := close_approach.velocity_km_s.getD 20
      some (simulate_impact diameter_avg velocity impact_lat impact_lon 45
        target_type)

/-! ## `app/services/environmental_service.py`, class `EnvironmentalService`

Only the tsunami and seismic sub-calculators are needed.  Their narrative
`effects` string lists are fixed presentation text and are omitted; the
numeric fields and severity labels are kept. -/

/-- Return value of `EnvironmentalService._calculate_tsunami_effects`:
`wave_height_meters` is absent (`none`) on the land branch. -/
structure TsunamiReport where
  risk : String
  wave_height_meters : Option ℝ

/-- `EnvironmentalService._calculate_tsunami_effects`. -/
noncomputable def calculate_tsunami_effects (lat lon energy_megatons : ℝ)
    (target_type : String) : TsunamiReport :=
  if target_type ≠ "water" then ⟨"None", none⟩
  else
    let wave_height_m := 10 * energy_megatons ^ (0.5 : ℝ)
    if energy_megatons < 10 then ⟨"Low", some (round1 wave_height_m)⟩
    else if energy_megatons < 1000 then ⟨"High", some (round1 wave_height_m)⟩
    else ⟨"Catastrophic", some (round1 wave_height_m)⟩

/-- Return value of `EnvironmentalService._calculate_seismic_effects`. -/
structure EnvSeismicReport where
  magnitude : ℝ
  severity : String
  range_km : ℝ

/-- `EnvironmentalService._calculate_seismic_effects`: computes
`0.67·log10(megatons·4.184e15) − 5.87` directly, with no guard on the sign of
the argument and no floor at 0; `none` models the `ValueError` from
`math.log10` when `megatons·4.184e15 ≤ 0`. -/
noncomputable def env_calculate_seismic_effects (energy_megatons : ℝ) :
    Option EnvSeismicReport :=
  match pyLog10 (energy_megatons * 4.184e15) with
  | none => none
  | some l =>
      let magnitude := 0.67 * l - 5.87
      if magnitude < 5 then some ⟨round1 magnitude, "Minor", 50⟩
      else if magnitude < 7 then some ⟨round1 magnitude, "Moderate", 500⟩
      else some ⟨round1 magnitude, "Extreme", 5000⟩

/-! ## Claims -/

/-- C1 (counterexample): `simulate_impact` raises no `InvalidParameter`
error: a zero diameter, an out-of-range latitude/longitude and an
unrecognized target string all produce an ordinary result, and an unknown
target string is silently given water's density in the crater formula. -/
theorem c1_counterexample :
    (simulate_impact 0 20 0 0 45 "land").asteroid.diameter_m = 0 ∧
    (simulate_impact 100 20 91 181 45 "volcano").impact.location.lat = 91 ∧
    calculate_crater_diameter 1 "volcano" = calculate_crater_diameter 1 "water" := by
  refine ⟨rfl, rfl, ?_⟩
  simp only [calculate_crater_diameter]
  rw [if_neg (by decide), if_neg (by decide)]

/-- C1 (amended): `simulate_impact` performs no validation at all: for any
non-negative diameter (the domain on which the source's power laws stay
real; a negative diameter instead fails downstream with a TypeError on a
complex crater diameter, still not an `InvalidParameter`), every other
argument, valid or not, is passed through into the physics chain and echoed
in the result, and any target_type other than the string `"land"` is treated
with the water density 1000; on this domain the kinetic energy (hence the
whole chain) is non-negative, so no error can arise downstream either. -/
theorem c1_no_validation (d v lat lon ang : ℝ) (tt : String) (hd : 0 ≤ d) :
    (simulate_impact d v lat lon ang tt).asteroid.diameter_m = d ∧
    (simulate_impact d v lat lon ang tt).asteroid.velocity_km_s = v ∧
    (simulate_impact d v lat lon ang tt).impact.location.lat = lat ∧
    (simulate_impact d v lat lon ang tt).impact.location.lon = lon ∧
    (simulate_impact d v lat lon ang tt).impact.target_type = tt ∧
    0 ≤ (simulate_impact d v lat lon ang tt).energy.joules ∧
    (tt ≠ "land" → ∀ m : ℝ,
      calculate_crater_diameter m tt = calculate_crater_diameter m "water") := by
  have h2 : (0 : ℝ) ≤ d / 2 := by linarith
  have hp : 0 ≤ Real.pi * (d / 2) ^ (3 : ℕ) :=
    mul_nonneg Real.pi_nonneg (pow_nonneg h2 3)
  have hm : 0 ≤ calculate_mass d := by
    simp only [calculate_mass, ASTEROID_DENSITY]
    nlinarith [hp]
  have he : 0 ≤ calculate_kinetic_energy (calculate_mass d) v := by
    simp only [calculate_kinetic_energy]
    nlinarith [hm, sq_nonneg (v * 1000)]
  refine ⟨rfl, rfl, rfl, rfl, rfl, he, ?_⟩
  intro h m
  simp only [calculate_crater_diameter]
  rw [if_neg h, if_neg (by decide)]

/-- C1 witness: the amended statement at a concrete invalid input. -/
theorem c1_no_validation_witness :
    (simulate_impact 0 (-5) 91 181 45 "volcano").asteroid.diameter_m = 0 ∧
    calculate_crater_diameter 2 "volcano" = calculate_crater_diameter 2 "water" := by
  have h := c1_no_validation 0 (-5) 91 181 45 "volcano" (by norm_num)
  exact ⟨h.1, h.2.2.2.2.2.2 (by decide) 2⟩

/-- C2 (counterexample): a record whose `close_approach_data` key is present
but holds an empty list makes `simulate_from_nasa_data` fail with an
`IndexError` (`none`) instead of defaulting the velocity to 20 km/s. -/
theorem c2_counterexample :
    simulate_from_nasa_data ⟨some 701.52, some 313.73, some []⟩ (-23.55)
      (-46.63) "land" = none := rfl

/-- C2 (amended): the 20 km/s default applies when the
`close_approach_data` key is absent, or when the first entry lacks a
`velocity_km_s` key; a present-but-empty list instead fails with an index
error and yields no result. -/
theorem c2_default_velocity (dmax dmin : Option ℝ) (lat lon : ℝ) (tt : String) :
    simulate_from_nasa_data ⟨dmax, dmin, none⟩ lat lon tt =
      some (simulate_impact ((dmax.getD 0 + dmin.getD 0) / 2) 20 lat lon 45 tt) ∧
    simulate_from_nasa_data ⟨dmax, dmin, some [⟨none⟩]⟩ lat lon tt =
      some (simulate_impact ((dmax.getD 0 + dmin.getD 0) / 2) 20 lat lon 45 tt) ∧
    simulate_from_nasa_data ⟨dmax, dmin, some []⟩ lat lon tt = none :=
  ⟨rfl, rfl, rfl⟩

/-- C3: simulating from a catalog record with diameters a (min) and b (max)
and one close-approach entry of velocity v is exactly simulating directly
with the mean diameter (a+b)/2 and velocity v, for every site and target;
and for a = 313.73, b = 701.52 the mean diameter is 507.625 m. -/
theorem c3_nasa_equivalence (a b v lat lon : ℝ) (tt : String) :
    simulate_from_nasa_data ⟨some b, some a, some [⟨some v⟩]⟩ lat lon tt =
      some (simulate_impact ((a + b) / 2) v lat lon 45 tt) ∧
    ((313.73 : ℝ) + 701.52) / 2 = 507.625 := by
  constructor
  · show some (simulate_impact ((b + a) / 2) v lat lon 45 tt) = _
    rw [add_comm b a]
  · norm_num

/-- C4: `calculate_seismic_magnitude` is non-negative everywhere, returns
exactly 0 for energy ≤ 0, and equals `max 0 (0.67·log10 E − 5.87)` for
positive energy. -/
theorem c4_seismic_magnitude_clamped (E : ℝ) :
    0 ≤ calculate_seismic_magnitude E ∧
    (E ≤ 0 → calculate_seismic_magnitude E = 0) ∧
    (0 < E → calculate_seismic_magnitude E =
      max 0 (0.67 * Real.logb 10 E - 5.87)) := by
  unfold calculate_seismic_magnitude
  refine ⟨?_, ?_, ?_⟩
  · split
    · exact le_refl 0
    · exact le_max_left _ _
  · intro h
    rw [if_pos h]
  · intro h
    rw [if_neg (not_le.mpr h)]

/-- C4 witness: the clamping at energy −1 and the formula at energy 10. -/
theorem c4_seismic_witness :
    0 ≤ calculate_seismic_magnitude (-1) ∧
    calculate_seismic_magnitude (-1) = 0 ∧
    calculate_seismic_magnitude 10 = max 0 (0.67 * Real.logb 10 10 - 5.87) :=
  ⟨(c4_seismic_magnitude_clamped (-1)).1,
   (c4_seismic_magnitude_clamped (-1)).2.1 (by norm_num),
   (c4_seismic_magnitude_clamped 10).2.2 (by norm_num)⟩

/-- C5: the crater entry of `calculate_damage_radii` is always the land
crater diameter divided by 2000, and the damage_zones block of a simulation
is identical for water and land targets. -/
theorem c5_crater_radius_always_land :
    (∀ m : ℝ, (calculate_damage_radii m).crater_radius_km =
      calculate_crater_diameter m "land" / 2000) ∧
    (∀ d v lat lon ang : ℝ,
      (simulate_impact d v lat lon ang "water").damage_zones =
      (simulate_impact d v lat lon ang "land").damage_zones) :=
  ⟨fun _ => rfl, fun _ _ _ _ _ => rfl⟩

/-- C6: `calculate_mass` is the uniform-sphere formula with density 3000,
is strictly increasing on positive diameters, and scales as the cube of the
diameter. -/
theorem c6_mass_sphere_cubic :
    (∀ d : ℝ, calculate_mass d = (4 / 3) * Real.pi * (d / 2) ^ (3 : ℕ) * 3000) ∧
    (∀ d₁ d₂ : ℝ, 0 < d₁ → d₁ < d₂ → calculate_mass d₁ < calculate_mass d₂) ∧
    (∀ d : ℝ, calculate_mass d = calculate_mass 1 * d ^ (3 : ℕ)) := by
  have hform : ∀ d : ℝ, calculate_mass d = 500 * Real.pi * d ^ (3 : ℕ) := by
    intro d
    simp only [calculate_mass, ASTEROID_DENSITY]
    ring
  refine ⟨fun d => rfl, ?_, ?_⟩
  · intro d₁ d₂ h1 h12
    rw [hform d₁, hform d₂]
    have hc : (0 : ℝ) < 500 * Real.pi := by positivity
    have h3 : d₁ ^ (3 : ℕ) < d₂ ^ (3 : ℕ) := by
      gcongr
    exact mul_lt_mul_of_pos_left h3 hc
  · intro d
    rw [hform d, hform 1]
    ring

/-- C6 witness: mass is strictly increasing from diameter 1 to 2 and the
cubic scaling at diameter 2. -/
theorem c6_mass_witness :
    calculate_mass 1 < calculate_mass 2 ∧
    calculate_mass 2 = calculate_mass 1 * 2 ^ (3 : ℕ) :=
  ⟨c6_mass_sphere_cubic.2.1 1 2 (by norm_num) (by norm_num),
   c6_mass_sphere_cubic.2.2 2⟩

/-- C9: all five damage radii are 0 at 0 megatons. -/
theorem c9_damage_radii_zero :
    (calculate_damage_radii 0).crater_radius_km = 0 ∧
    (calculate_damage_radii 0).fireball_radius_km = 0 ∧
    (calculate_damage_radii 0).shockwave_radius_km = 0 ∧
    (calculate_damage_radii 0).thermal_radiation_km = 0 ∧
    (calculate_damage_radii 0).seismic_effect_km = 0 := by
  have h1 : (0 : ℝ) ^ (0.28 : ℝ) = 0 := Real.zero_rpow (by norm_num)
  have h2 : (0 : ℝ) ^ (0.4 : ℝ) = 0 := Real.zero_rpow (by norm_num)
  have h3 : (0 : ℝ) ^ (0.33 : ℝ) = 0 := Real.zero_rpow (by norm_num)
  have h4 : (0 : ℝ) ^ (0.25 : ℝ) = 0 := Real.zero_rpow (by norm_num)
  refine ⟨?_, ?_, ?_, ?_, ?_⟩ <;>
    simp [calculate_damage_radii, calculate_crater_diameter, h1, h2, h3, h4]

/-- C7 (counterexample): the population-impact area is not `π·r²`: at
shockwave radius 1 km, the reported area is 3.14 (the source's literal
3.14159, rounded to two decimals), which differs from π. -/
theorem c7_counterexample :
    (estimate_population_impact ⟨0, 0, 1, 0, 0⟩).affected_area_km2 ≠
      Real.pi * 1 ^ (2 : ℕ) := by
  have harea : (estimate_population_impact ⟨0, 0, 1, 0, 0⟩).affected_area_km2
      = 3.14 := by
    show round2 (3.14159 * (1 : ℝ) ^ (2 : ℕ)) = 3.14
    have hr : round ((3.14159 * (1 : ℝ) ^ (2 : ℕ)) * 100) = 314 := by
      rw [round_eq]
      have : ⌊(314.659 : ℝ)⌋ = 314 := by
        apply Int.floor_eq_iff.mpr
        constructor <;> norm_num
      rw [show (3.14159 * (1 : ℝ) ^ (2 : ℕ)) * 100 + 1 / 2 = 314.659 by norm_num]
      exact this
    rw [round2, hr]
    norm_num
  rw [harea]
  intro h
  rw [one_pow, mul_one] at h
  have hpi := Real.pi_gt_d6
  linarith

/-- C7 (amended): the population estimate uses the literal constant 3.14159
in place of π: the people count is the truncation of
`3.14159·shockwave_radius²·60` and the reported area is
`3.14159·shockwave_radius²` rounded to two decimals; the estimate inside a
simulation is exactly this function applied to the engine's damage radii for
the simulation's megatons. -/
theorem c7_population_impact (dz : DamageRadii) (d v lat lon ang : ℝ)
    (tt : String) :
    (estimate_population_impact dz).estimated_people_affected =
      ⌊3.14159 * dz.shockwave_radius_km ^ (2 : ℕ) * 60⌋ ∧
    (estimate_population_impact dz).affected_area_km2 =
      round2 (3.14159 * dz.shockwave_radius_km ^ (2 : ℕ)) ∧
    (simulate_impact d v lat lon ang tt).population_impact =
      estimate_population_impact (calculate_damage_radii
        (energy_to_tnt_megatons (calculate_kinetic_energy
          (calculate_mass d) v))) := by
  refine ⟨?_, rfl, rfl⟩
  show pyTrunc (3.14159 * dz.shockwave_radius_km ^ (2 : ℕ) * 60) = _
  unfold pyTrunc
  rw [if_pos (by positivity)]

/-- C8: the tsunami sub-calculator reports risk "None" for every non-water
target regardless of megatons, and on water the reported wave height is
`10·megatons^0.5` rounded to one decimal. -/
theorem c8_tsunami (lat lon m lat' lon' m' : ℝ) (tt : String) :
    (tt ≠ "water" → (calculate_tsunami_effects lat lon m tt).risk = "None") ∧
    (0 ≤ m' →
      (calculate_tsunami_effects lat' lon' m' "water").wave_height_meters =
        some (round1 (10 * m' ^ (0.5 : ℝ)))) := by
  constructor
  · intro h
    simp only [calculate_tsunami_effects]
    rw [if_pos h]
  · intro _
    simp only [calculate_tsunami_effects]
    rw [if_neg (by decide)]
    split_ifs <;> rfl

/-- C8 witness: risk "None" on land at 99 megatons, and the wave height on
water at 4 megatons. -/
theorem c8_tsunami_witness :
    (calculate_tsunami_effects 10 20 99 "land").risk = "None" ∧
    (calculate_tsunami_effects 0 0 4 "water").wave_height_meters =
      some (round1 (10 * (4 : ℝ) ^ (0.5 : ℝ))) := by
  have h := c8_tsunami 10 20 99 0 0 4 "land"
  exact ⟨h.1 (by decide), h.2 (by norm_num)⟩

/-- C10: the environmental seismic sub-calculator has no guard: for every
megatons ≤ 0 it fails with a math domain error (`none`), while the core
`calculate_seismic_magnitude` clamps non-positive energies to 0; for
positive megatons it reports `0.67·log10(megatons·4.184e15) − 5.87`
(rounded to one decimal) with no floor at 0. -/
theorem c10_env_seismic_no_guard (m E : ℝ) :
    (m ≤ 0 → env_calculate_seismic_effects m = none) ∧
    (E ≤ 0 → calculate_seismic_magnitude E = 0) ∧
    (0 < m → ∃ r : EnvSeismicReport,
      env_calculate_seismic_effects m = some r ∧
      r.magnitude = round1 (0.67 * Real.logb 10 (m * 4.184e15) - 5.87)) := by
  refine ⟨?_, ?_, ?_⟩
  · intro h
    have hx : ¬ (0 < m * 4.184e15) := by nlinarith
    simp only [env_calculate_seismic_effects, pyLog10, if_neg hx]
  · intro h
    simp only [calculate_seismic_magnitude, if_pos h]
  · intro h
    have hx : 0 < m * 4.184e15 := mul_pos h (by norm_num)
    simp only [env_calculate_seismic_effects, pyLog10, if_pos hx]
    split_ifs <;> exact ⟨_, rfl, rfl⟩

/-- C10 witness: failure at 0 megatons, the core clamp at energy −1, and
the unguarded formula at 1 megaton. -/
theorem c10_env_seismic_witness :
    env_calculate_seismic_effects 0 = none ∧
    calculate_seismic_magnitude (-1) = 0 ∧
    ∃ r : EnvSeismicReport,
      env_calculate_seismic_effects 1 = some r ∧
      r.magnitude = round1 (0.67 * Real.logb 10 (1 * 4.184e15) - 5.87) := by
  have h := c10_env_seismic_no_guard 0 (-1)
  have h' := c10_env_seismic_no_guard 1 (-1)
  exact ⟨h.1 (by norm_num), h.2.1 (by norm_num), h'.2.2 (by norm_num)⟩
